import Mathlib

/-!
Verification of the three-stage retrieval-augmented question-answering
pipeline implemented in `agent.py` and `utils.py`: the `GraphState` data
model, the three node functions (`retriever_node`, `generator_node`,
`formatter_node`), the compiled linear graph built by `create_agent`, and
the retriever tool built by `create_retriever_tool`.
-/

namespace LangSmithQA

/-- `GraphState` from `agent.py`: the TypedDict threaded through the graph.
A value doubles as a partial update (a dict holding a subset of the keys),
so every field is optional; the initial input holds only `question`. -/
structure GraphState where
  question : Option String
  documents : Option String
  answer : Option String
  formatted_output : Option String
deriving DecidableEq

/-- The error kinds a pipeline invocation can surface, tagged with the
stage whose external call raised (spec taxonomy for the exceptions that
propagate out of the corresponding node). -/
inductive AgentError where
  | retrievalError (msg : String)
  | generationError (msg : String)
  | noneToolError
  | missingKey (key : String)
  | graphError
deriving DecidableEq

/-- A LangChain `Tool` as built in `utils.py`: a name, a description and a
fallible text-to-text function. -/
structure Tool where
  name : String
  description : String
  func : String → Except String String

/-- Modelled from the spec: the external Document Index (the FAISS vector
store, not part of this repository). For a query it either fails (the
Provider embedding or search call fails) or yields the stored chunks that
match, each paired with its vector distance to the query. -/
structure VectorStore where
  search : String → Except String (List (String × Rat))

/-- Distance comparison used to rank matches, nearest first. -/
def distRel (a b : String × Rat) : Prop := a.2 ≤ b.2

instance : DecidableRel distRel := fun a b => inferInstanceAs (Decidable (a.2 ≤ b.2))

instance : IsTotal (String × Rat) distRel := ⟨fun a b => le_total a.2 b.2⟩

instance : IsTrans (String × Rat) distRel := ⟨fun _ _ _ => le_trans⟩

/-- Modelled from the spec: FAISS similarity search through
`vectorstore.as_retriever(search_kwargs={"k": k})` returns the
`min(k, matches)` nearest chunks in nearest-first distance order. -/
def retriever_invoke (vectorstore : VectorStore) (k : Nat) (query : String) :
    Except String (List String) :=
  (vectorstore.search query).map
    (fun scored => ((List.insertionSort distRel scored).map Prod.fst).take k)

/-- `create_retriever_tool` from `utils.py`: wraps the `k = 3` retriever in
a `Tool` whose function joins the page contents of the retrieved documents
with a blank line (two newline characters) between consecutive chunks. -/
def create_retriever_tool (vectorstore : VectorStore) : Tool where
  name := "langsmith_retriever_tool"
  description := "Retrieves relevant information from LangSmith documentation. Use this tool when you need to answer questions about LangSmith features, such as tracing, evaluation, or other capabilities."
  func := fun query =>
    (retriever_invoke vectorstore 3 query).map
      (fun docs => String.intercalate "\n\n" docs)

/-- A role-tagged chat message (`SystemMessage` / `HumanMessage`). -/
structure Message where
  role : String
  content : String
deriving DecidableEq

/-- The request `generator_node` sends through `ChatOpenAI`: model
identifier, sampling temperature and the ordered message list. -/
structure CompletionRequest where
  model : String
  temperature : Rat
  messages : List Message

/-- The external Completion capability (the chat model behind the
gateway): a fallible function from a request to the completion text. -/
abbrev Completion := CompletionRequest → Except String String

/-- The fixed system prompt template of `generator_node` up to the
`documents` placeholder, which sits at the very end of the template. -/
def system_prompt_template : String :=
  "You are a helpful LangSmith documentation expert. \nUse the provided documentation to answer the user\x27s question accurately and concisely.\nIf the documentation doesn\x27t contain enough information, say so.\n\nDocumentation:\n"

/-- `system_prompt.format(documents=documents)` from `generator_node`: the
retrieved text is interpolated verbatim at the end of the template. -/
def system_prompt (documents : String) : String :=
  system_prompt_template ++ documents

/-- `retriever_node` from `agent.py`: reads `state["question"]`, invokes
the module-level retriever tool (failing when that global is still `None`)
and returns the partial update `{"documents": documents}`. -/
def retriever_node (retriever_tool : Option Tool) (state : GraphState) :
    Except AgentError GraphState :=
  match state.question with
  | none => .error (.missingKey "question")
  | some question =>
    match retriever_tool with
    | none => .error .noneToolError
    | some tool =>
      match tool.func question with
      | .error msg => .error (.retrievalError msg)
      | .ok documents => .ok ⟨none, some documents, none, none⟩

/-- `generator_node` from `agent.py`: reads `question` and `documents`,
invokes the Completion capability on exactly two messages (system template
with the documents interpolated, then the question verbatim) at
temperature 0.3 with model `gpt-4o-mini`, and returns the partial update
`{"answer": answer}` with the completion text verbatim. -/
def generator_node (llm : Completion) (state : GraphState) :
    Except AgentError GraphState :=
  match state.question with
  | none => .error (.missingKey "question")
  | some question =>
    match state.documents with
    | none => .error (.missingKey "documents")
    | some documents =>
      match llm ⟨"gpt-4o-mini", 3/10,
        [⟨"system", system_prompt documents⟩, ⟨"user", question⟩]⟩ with
      | .error msg => .error (.generationError msg)
      | .ok answer => .ok ⟨none, none, some answer, none⟩

/-- The horizontal rule of the output template: 62 box-drawing double
horizontal characters. -/
def hbar : String := String.mk (List.replicate 62 '═')

/-- The fixed banner and question label of the `formatter_node` template,
up to the `question` placeholder. -/
def banner : String :=
  "\n╔" ++ hbar ++ "╗\n║                    LANGSMITH Q&A AGENT                       ║\n╚" ++ hbar ++ "╝\n\n📝 Question:\n"

/-- The fixed answer label of the `formatter_node` template, between the
`question` and `answer` placeholders. -/
def answer_label : String := "\n\n💡 Answer:\n"

/-- The fixed trailing separator of the `formatter_node` template, after
the `answer` placeholder. -/
def trailing_sep : String := "\n\n" ++ hbar ++ "\n"

/-- The f-string of `formatter_node`: banner, question verbatim, answer
label, answer verbatim, trailing separator. -/
def format_output (question answer : String) : String :=
  banner ++ question ++ answer_label ++ answer ++ trailing_sep

/-- `formatter_node` from `agent.py`: reads `question` and `answer` and
returns the partial update `{"formatted_output": ...}`. -/
def formatter_node (state : GraphState) : Except AgentError GraphState :=
  match state.question with
  | none => .error (.missingKey "question")
  | some question =>
    match state.answer with
    | none => .error (.missingKey "answer")
    | some answer => .ok ⟨none, none, none, some (format_output question answer)⟩

/-- LangGraph state merging for one field: a key present in the returned
partial update overwrites the value in the state, an absent key leaves it. -/
def updField (new old : Option String) : Option String :=
  match new with
  | some v => some v
  | none => old

/-- Merge the partial update returned by a node into the accumulating state,
field by field. -/
def mergeState (s u : GraphState) : GraphState :=
  ⟨updField u.question s.question, updField u.documents s.documents,
   updField u.answer s.answer, updField u.formatted_output s.formatted_output⟩

/-- The terminal pseudo-node `END` of LangGraph. -/
def END : String := "__end__"

/-- The nodes added in `create_agent`. -/
def agent_nodes : List String := ["retrieve", "generate", "format"]

/-- The edges added in `create_agent`:
`retrieve → generate → format → END`. -/
def agent_edges : List (String × String) :=
  [("retrieve", "generate"), ("generate", "format"), ("format", END)]

/-- The entry point set in `create_agent`. -/
def agent_entry : String := "retrieve"

/-- The node-name-to-function association registered by the three
`add_node` calls in `create_agent`. -/
def nodeFun (tool : Option Tool) (llm : Completion) (name : String)
    (state : GraphState) : Except AgentError GraphState :=
  if name = "retrieve" then retriever_node tool state
  else if name = "generate" then generator_node llm state
  else if name = "format" then formatter_node state
  else .error .graphError

/-- Follow the unique outgoing edge of a node, if any. -/
def findEdge (edges : List (String × String)) (src : String) : Option String :=
  match edges with
  | [] => none
  | e :: rest => if e.1 = src then some e.2 else findEdge rest src

/-- Execution of a compiled LangGraph graph: starting from a node, run the
node, merge its partial update into the state, follow the outgoing edge,
and stop at `END`; the fuel models the LangGraph recursion limit. -/
def execGraph (nf : String → GraphState → Except AgentError GraphState)
    (edges : List (String × String)) :
    Nat → String → GraphState → Except AgentError GraphState
  | 0, _, _ => .error .graphError
  | fuel + 1, node, state =>
    if node = END then .ok state
    else
      match nf node state with
      | .error e => .error e
      | .ok update =>
        match findEdge edges node with
        | none => .error .graphError
        | some next => execGraph nf edges fuel next (mergeState state update)

/-- The default LangGraph recursion limit. -/
def recursion_limit : Nat := 25

/-- Invoking the agent compiled by `create_agent` on an input state, with
the current value of the module-level retriever tool global and the
Completion capability passed explicitly. -/
def invoke_agent (tool : Option Tool) (llm : Completion) (input : GraphState) :
    Except AgentError GraphState :=
  execGraph (nodeFun tool llm) agent_edges recursion_limit agent_entry input

/-- The input state for a query: only `question` is populated. -/
def initState (question : String) : GraphState := ⟨some question, none, none, none⟩

/-- The pipeline controller contract: invoke the compiled agent on
`{"question": question}`. -/
def answer_question (tool : Option Tool) (llm : Completion) (question : String) :
    Except AgentError GraphState :=
  invoke_agent tool llm (initState question)

/-- The straight-line reference pipeline: retrieval, then generation, then
formatting, merging each partial update in turn. -/
def seq_pipeline (tool : Option Tool) (llm : Completion) (s0 : GraphState) :
    Except AgentError GraphState :=
  match retriever_node tool s0 with
  | .error e => .error e
  | .ok u1 =>
    match generator_node llm (mergeState s0 u1) with
    | .error e => .error e
    | .ok u2 =>
      match formatter_node (mergeState (mergeState s0 u1) u2) with
      | .error e => .error e
      | .ok u3 => .ok (mergeState (mergeState (mergeState s0 u1) u2) u3)

/-- The value of the module-level global `retriever_tool` in `agent.py`. -/
abbrev ModuleState := Option Tool

/-- The initial value of the global: `retriever_tool = None` at import time. -/
def initial_retriever_tool : ModuleState := none

/-- A compiled agent. Its nodes read the module-level retriever tool
global at invocation time, so `invoke` takes the current global value. -/
structure Agent where
  invoke : ModuleState → Completion → GraphState → Except AgentError GraphState

/-- `create_agent` from `agent.py`: overwrites the module-level global
with the given tool instance and returns the compiled agent, whose
retrieval reads whatever the global holds when it is invoked. -/
def create_agent (retriever_tool_instance : Tool) : ModuleState × Agent :=
  (some retriever_tool_instance,
   ⟨fun g llm input => invoke_agent g llm input⟩)

/-- The node sequence actually traversed by following the edges from a
start node until `END` (or until the fuel runs out). -/
def trajectory (edges : List (String × String)) : Nat → String → List String
  | 0, _ => []
  | fuel + 1, node =>
    if node = END then []
    else
      match findEdge edges node with
      | none => [node]
      | some next => node :: trajectory edges fuel next

/-- Executing the compiled graph is the straight-line pipeline: retrieval,
then generation, then formatting, each merging its update into the state. -/
theorem invoke_agent_eq_seq (tool : Option Tool) (llm : Completion)
    (s : GraphState) : invoke_agent tool llm s = seq_pipeline tool llm s := by
  unfold invoke_agent seq_pipeline
  cases h1 : retriever_node tool s with
  | error e =>
    simp [execGraph, nodeFun, findEdge, agent_edges, agent_entry,
      recursion_limit, END, h1]
  | ok u1 =>
    cases h2 : generator_node llm (mergeState s u1) with
    | error e =>
      simp [execGraph, nodeFun, findEdge, agent_edges, agent_entry,
        recursion_limit, END, h1, h2]
    | ok u2 =>
      cases h3 : formatter_node (mergeState (mergeState s u1) u2) with
      | error e =>
        simp [execGraph, nodeFun, findEdge, agent_edges, agent_entry,
          recursion_limit, END, h1, h2, h3]
      | ok u3 =>
        simp [execGraph, nodeFun, findEdge, agent_edges, agent_entry,
          recursion_limit, END, h1, h2, h3]

/-- Full evaluation of a query through the compiled pipeline, exposing the
two external calls (retriever tool, then the completion request). -/
theorem answer_question_unfold (tool : Tool) (llm : Completion) (q : String) :
    answer_question (some tool) llm q =
      match tool.func q with
      | .error m => .error (.retrievalError m)
      | .ok d =>
        match llm ⟨"gpt-4o-mini", 3/10,
            [⟨"system", system_prompt d⟩, ⟨"user", q⟩]⟩ with
        | .error m => .error (.generationError m)
        | .ok a => .ok ⟨some q, some d, some a, some (format_output q a)⟩ := by
  rw [answer_question, invoke_agent_eq_seq]
  unfold seq_pipeline retriever_node initState
  cases h1 : tool.func q with
  | error m => simp [h1]
  | ok d =>
    cases h2 : llm ⟨"gpt-4o-mini", 3/10,
        [⟨"system", system_prompt d⟩, ⟨"user", q⟩]⟩ with
    | error m => simp [h1, generator_node, mergeState, updField, h2]
    | ok a =>
      simp [h1, generator_node, mergeState, updField, h2, formatter_node]

/-- A mocked index holding two chunks with known distances (the worked
scenario of the spec). -/
def testIndex : VectorStore :=
  ⟨fun _ => .ok [("Tracing lets you log runs.", 1), ("Use callbacks to trace.", 2)]⟩

/-- The retriever tool wrapping the mocked index. -/
def testTool : Tool := create_retriever_tool testIndex

/-- A deterministic mocked Completion capability. -/
def testLLM : Completion := fun _ => .ok "Tracing logs your LLM calls via callbacks."

/-- A mocked index returning zero matches for every query. -/
def emptyIndex : VectorStore := ⟨fun _ => .ok []⟩

/-- A mocked index whose Provider embedding call fails. -/
def failIndex : VectorStore := ⟨fun _ => .error "embedding call timed out"⟩

/-- The documents block retrieved from `testIndex`. -/
def testDocs : String := "Tracing lets you log runs.\n\nUse callbacks to trace."

/-- The completion text of `testLLM`. -/
def testAnswer : String := "Tracing logs your LLM calls via callbacks."

/-- The final state of a successful run against the mocks. -/
def testState : GraphState :=
  ⟨some "q", some testDocs, some testAnswer, some (format_output "q" testAnswer)⟩

/-- C4: for arbitrary question and answer strings, including ones holding
the template delimiter characters, the Formatting stage performs pure
template substitution: its partial update is exactly the fixed-layout
block, and that block holds the unmodified question and answer strings as
substrings (banner, question verbatim, answer label, answer verbatim,
trailing separator), with no validation, truncation or escaping. -/
theorem c4_formatting_fidelity (q a : String) (d f : Option String) :
    formatter_node ⟨some q, d, some a, f⟩ =
      .ok ⟨none, none, none, some (format_output q a)⟩
    ∧ ∃ pre mid post : String, format_output q a = pre ++ q ++ mid ++ a ++ post :=
  ⟨rfl, banner, answer_label, trailing_sep, rfl⟩

/-- C5: for every question and documents input, the Generation stage
invokes the Completion capability with exactly two messages — the
system-role fixed template with the documents interpolated verbatim at its
end, and the user-role question verbatim — at temperature 3/10 = 0.3 with
the fixed model identifier `gpt-4o-mini`, and returns the completion text
verbatim as the `answer` update. -/
theorem c5_generation_request (llm : Completion) (q d : String)
    (a f : Option String) :
    generator_node llm ⟨some q, some d, a, f⟩ =
      (match llm ⟨"gpt-4o-mini", 3/10,
          [⟨"system", system_prompt_template ++ d⟩, ⟨"user", q⟩]⟩ with
        | .error m => .error (.generationError m)
        | .ok ans => .ok ⟨none, none, some ans, none⟩)
    ∧ ((3 : Rat)/10 : Rat) = (0.3 : Rat) :=
  ⟨rfl, by norm_num⟩

/-- C7: the compiled graph is a fixed linear state machine: following the
edges from the entry point traverses exactly `retrieve`, `generate`,
`format` and then terminates; every node has exactly one outgoing edge (no
conditional edges, cycles or skip paths); and every invocation of the
compiled agent equals the straight-line three-stage pipeline. -/
theorem c7_linear_pipeline :
    trajectory agent_edges recursion_limit agent_entry =
      ["retrieve", "generate", "format"]
    ∧ (∀ n, n ∈ agent_nodes →
        (agent_edges.filter (fun e => e.1 == n)).length = 1)
    ∧ (∀ tool llm s, invoke_agent tool llm s = seq_pipeline tool llm s) :=
  ⟨by decide, by decide, invoke_agent_eq_seq⟩

/-- C9: two invocations of the pipeline with the same question against the
same index and the same deterministic Provider capabilities yield
identical `documents` and identical `answer` content. -/
theorem c9_idempotent (tool : Option Tool) (llm : Completion) (q : String)
    (s1 s2 : GraphState)
    (h1 : answer_question tool llm q = .ok s1)
    (h2 : answer_question tool llm q = .ok s2) :
    s1.documents = s2.documents ∧ s1.answer = s2.answer := by
  have h := h1.symm.trans h2
  injection h with h
  rw [h]
  exact ⟨rfl, rfl⟩

/-- Witness for C9, at the mocked index and Completion capability. -/
theorem c9_idempotent_witness :
    testState.documents = testState.documents
    ∧ testState.answer = testState.answer :=
  c9_idempotent (some testTool) testLLM "q" testState testState rfl rfl

/-- C10: the retriever capability is a module-level shared global:
`create_agent` writes the given tool into it, an agent created by an
earlier `create_agent` call but invoked after a later one retrieves
through the newer tool (its retrieval reads the global at invocation
time), and running `retriever_node` before any `create_agent` call fails
because the global is still `None`. -/
theorem c10_shared_global (t1 t2 : Tool) (llm : Completion) (q : String) :
    (create_agent t1).1 = some t1
    ∧ (create_agent t1).2.invoke (create_agent t2).1 llm (initState q) =
        answer_question (some t2) llm q
    ∧ retriever_node initial_retriever_tool (initState q) =
        .error .noneToolError :=
  ⟨rfl, rfl, rfl⟩

/-- C1: for every non-empty question, the compiled pipeline either
returns a state with all four fields populated (`question` unchanged,
`documents`, `answer` and `formatted_output` set), or fails with one of
the defined error kinds (retrieval or generation); it never returns a
partially populated successful result. -/
theorem c1_all_or_nothing (tool : Tool) (llm : Completion) (q : String)
    (_hq : q ≠ "") :
    (∀ s, answer_question (some tool) llm q = .ok s →
      s.question = some q ∧ (∃ d, s.documents = some d) ∧
      (∃ a, s.answer = some a) ∧ (∃ f, s.formatted_output = some f))
    ∧ (∀ e, answer_question (some tool) llm q = .error e →
      (∃ m, e = .retrievalError m) ∨ (∃ m, e = .generationError m)) := by
  cases h1 : tool.func q with
  | error m =>
    have hu : answer_question (some tool) llm q = .error (.retrievalError m) := by
      rw [answer_question_unfold]; simp only [h1]
    constructor
    · intro s hs; rw [hu] at hs; cases hs
    · intro e he; rw [hu] at he; injection he with h
      exact .inl ⟨m, h.symm⟩
  | ok d =>
    cases h2 : llm ⟨"gpt-4o-mini", 3/10,
        [⟨"system", system_prompt d⟩, ⟨"user", q⟩]⟩ with
    | error m =>
      have hu : answer_question (some tool) llm q =
          .error (.generationError m) := by
        rw [answer_question_unfold]; simp only [h1, h2]
      constructor
      · intro s hs; rw [hu] at hs; cases hs
      · intro e he; rw [hu] at he; injection he with h
        exact .inr ⟨m, h.symm⟩
    | ok a =>
      have hu : answer_question (some tool) llm q =
          .ok ⟨some q, some d, some a, some (format_output q a)⟩ := by
        rw [answer_question_unfold]; simp only [h1, h2]
      constructor
      · intro s hs; rw [hu] at hs; injection hs with h
        rw [← h]
        exact ⟨rfl, ⟨d, rfl⟩, ⟨a, rfl⟩, ⟨format_output q a, rfl⟩⟩
      · intro e he; rw [hu] at he; cases he

/-- Witness for C1, at the mocked index and Completion capability. -/
theorem c1_all_or_nothing_witness :
    testState.question = some "q" ∧ (∃ d, testState.documents = some d) ∧
    (∃ a, testState.answer = some a) ∧
    (∃ f, testState.formatted_output = some f) :=
  (c1_all_or_nothing testTool testLLM "q" (by decide)).1 testState rfl

/-- C2: whenever the index yields scored matches for a query, the
retriever tool returns the page contents of the `min(3, matches)` nearest
chunks, concatenated nearest-first (a distance-sorted permutation of the
matches) and separated by two newline characters between consecutive
chunks. -/
theorem c2_retrieval_ranked (vs : VectorStore) (q : String)
    (scored : List (String × Rat)) (h : vs.search q = .ok scored) :
    ∃ ranked : List (String × Rat),
      ranked.Perm scored
      ∧ ranked.Pairwise (fun a b => a.2 ≤ b.2)
      ∧ (create_retriever_tool vs).func q =
          .ok (String.intercalate "\n\n" ((ranked.map Prod.fst).take 3))
      ∧ ((ranked.map Prod.fst).take 3).length = min 3 scored.length := by
  refine ⟨List.insertionSort distRel scored,
    List.perm_insertionSort distRel scored, ?_, ?_, ?_⟩
  · exact List.sorted_insertionSort distRel scored
  · simp [create_retriever_tool, retriever_invoke, h, Except.map]
  · rw [List.length_take, List.length_map,
      (List.perm_insertionSort distRel scored).length_eq]

/-- Witness for C2, at the mocked two-chunk index. -/
theorem c2_retrieval_ranked_witness :
    testIndex.search "q" =
      .ok [("Tracing lets you log runs.", 1), ("Use callbacks to trace.", 2)]
    ∧ ∃ ranked : List (String × Rat),
        ranked.Perm
          [("Tracing lets you log runs.", 1), ("Use callbacks to trace.", 2)]
        ∧ ranked.Pairwise (fun a b => a.2 ≤ b.2)
        ∧ (create_retriever_tool testIndex).func "q" =
            .ok (String.intercalate "\n\n" ((ranked.map Prod.fst).take 3))
        ∧ ((ranked.map Prod.fst).take 3).length =
            min 3 ([("Tracing lets you log runs.", (1 : Rat)),
              ("Use callbacks to trace.", 2)]).length :=
  ⟨rfl, c2_retrieval_ranked testIndex "q" _ rfl⟩

/-- C3: when the Retrieval stage fails (the embedding or
similarity-search call errors), the whole invocation fails with a
retrieval error distinguishable from a generation error, the remaining
stages are aborted and the caller receives no state — in particular no
`documents`, `answer` or `formatted_output` value. -/
theorem c3_retrieval_error_aborts (vs : VectorStore) (llm : Completion)
    (q msg : String) (h : vs.search q = .error msg) :
    answer_question (some (create_retriever_tool vs)) llm q =
      .error (.retrievalError msg)
    ∧ ∀ m, AgentError.retrievalError msg ≠ AgentError.generationError m := by
  have hf : (create_retriever_tool vs).func q = .error msg := by
    simp [create_retriever_tool, retriever_invoke, h, Except.map]
  constructor
  · rw [answer_question_unfold]; simp only [hf]
  · intro m hm; cases hm

/-- Witness for C3, at an index whose embedding call times out. -/
theorem c3_retrieval_error_aborts_witness :
    failIndex.search "q" = .error "embedding call timed out"
    ∧ answer_question (some (create_retriever_tool failIndex)) testLLM "q" =
        .error (.retrievalError "embedding call timed out")
    ∧ ∀ m, AgentError.retrievalError "embedding call timed out" ≠
        AgentError.generationError m :=
  ⟨rfl, c3_retrieval_error_aborts failIndex testLLM "q" "embedding call timed out" rfl⟩

/-- C6: when the index returns zero matches, the retrieved documents block
is the empty string, the Generation stage still invokes the model (and the
invocation completes when the completion succeeds), and the Formatting
stage still produces the well-formed block with the question embedded
verbatim. -/
theorem c6_empty_evidence (vs : VectorStore) (llm : Completion) (q a : String)
    (hvs : vs.search q = .ok [])
    (hllm : llm ⟨"gpt-4o-mini", 3/10,
      [⟨"system", system_prompt ""⟩, ⟨"user", q⟩]⟩ = .ok a) :
    answer_question (some (create_retriever_tool vs)) llm q =
      .ok ⟨some q, some "", some a, some (format_output q a)⟩
    ∧ ∃ pre mid post : String,
        format_output q a = pre ++ q ++ mid ++ a ++ post := by
  have hf : (create_retriever_tool vs).func q = .ok "" := by
    simp [create_retriever_tool, retriever_invoke, hvs, Except.map]
    rfl
  constructor
  · rw [answer_question_unfold]; simp only [hf, hllm]
  · exact ⟨banner, answer_label, trailing_sep, rfl⟩

/-- Witness for C6, at the zero-match index. -/
theorem c6_empty_evidence_witness :
    emptyIndex.search "q" = .ok []
    ∧ testLLM ⟨"gpt-4o-mini", 3/10,
        [⟨"system", system_prompt ""⟩, ⟨"user", "q"⟩]⟩ = .ok testAnswer
    ∧ (answer_question (some (create_retriever_tool emptyIndex)) testLLM "q" =
        .ok ⟨some "q", some "", some testAnswer,
          some (format_output "q" testAnswer)⟩
      ∧ ∃ pre mid post : String,
          format_output "q" testAnswer = pre ++ "q" ++ mid ++ testAnswer ++ post) :=
  ⟨rfl, rfl, c6_empty_evidence emptyIndex testLLM "q" testAnswer rfl rfl⟩

/-- C8: state updates are additive: the partial update of each stage holds only
its own field, merging never clears a field the update leaves absent, and
the `question` field is never modified by the pipeline — a successful run
ends with the original question. -/
theorem c8_additive_updates :
    (∀ tool s u, retriever_node tool s = .ok u →
      u.question = none ∧ u.answer = none ∧ u.formatted_output = none)
    ∧ (∀ llm s u, generator_node llm s = .ok u →
      u.question = none ∧ u.documents = none ∧ u.formatted_output = none)
    ∧ (∀ s u, formatter_node s = .ok u →
      u.question = none ∧ u.documents = none ∧ u.answer = none)
    ∧ (∀ s u, u.question = none → (mergeState s u).question = s.question)
    ∧ (∀ tool llm q s, answer_question (some tool) llm q = .ok s →
      s.question = some q) := by
  refine ⟨?_, ?_, ?_, ?_, ?_⟩
  · intro tool s u h
    unfold retriever_node at h
    split at h
    · cases h
    · split at h
      · cases h
      · split at h
        · cases h
        · injection h with h; rw [← h]; exact ⟨rfl, rfl, rfl⟩
  · intro llm s u h
    unfold generator_node at h
    split at h
    · cases h
    · split at h
      · cases h
      · split at h
        · cases h
        · injection h with h; rw [← h]; exact ⟨rfl, rfl, rfl⟩
  · intro s u h
    unfold formatter_node at h
    split at h
    · cases h
    · split at h
      · cases h
      · injection h with h; rw [← h]; exact ⟨rfl, rfl, rfl⟩
  · intro s u h
    simp [mergeState, updField, h]
  · intro tool llm q s h
    rw [answer_question_unfold] at h
    split at h
    · cases h
    · split at h
      · cases h
      · injection h with h; rw [← h]

/-- Witness for C8: the final state of a successful concrete run still
holds the original question. -/
theorem c8_additive_updates_witness : testState.question = some "q" :=
  c8_additive_updates.2.2.2.2 testTool testLLM "q" testState rfl

end LangSmithQA
